import Mathlib

/-!
Shallow embedding of the scene-node tree builder of `classes/Object.py`
(class `Object` and its variants `Locator`, `Joint`, `Emitter`, `Mesh`,
`Collision`, `Model`, `Reference`).

Modelling conventions:
  * Python values stored in attributes and external data mappings are
    modelled by the inductive `PyVal` (strings, ints, rationals, booleans,
    plus opaque external payloads).
  * A Python object is a record `ObjNode`; attributes that only some
    variants set are `Option`-valued, `none` meaning the attribute is
    absent (or holds Python `None` where the code treats the two alike).
  * Fallible code returns `Except PyError`; operations whose partial
    mutations are observable after an exception (`add_child` /
    `populate_meshlist`) instead return `State × Option PyError` so the
    heap at raise time is kept, as in Python.
  * The object heap used by `add_child` / `populate_meshlist` is a list of
    nodes indexed by `Nat` ids; `Parent` / `Children` store ids.
  * Python's bounded recursion is modelled by an explicit fuel parameter;
    exhaustion yields `recursionError`.
-/

/-- Errors a Python run of this code can surface. `invalidRef` is a
model-level error for dangling heap ids (unreachable from well-formed
states). -/
inductive PyError where
  | typeError
  | keyError (k : String)
  | attributeError
  | recursionError
  | invalidRef
  deriving DecidableEq, Repr

/-- Python values that flow through attribute lists and data mappings. -/
inductive PyVal where
  | vStr (s : String)
  | vInt (n : Int)
  | vRat (q : ℚ)
  | vBool (b : Bool)
  | vExt (tag : Nat)
  deriving DecidableEq, Repr

open PyVal

/-- The classes of `Object.py`, for Python's `super(cls, self)` check. -/
inductive PyClass where
  | objectRoot
  | objectBase
  | locatorC
  | jointC
  | emitterC
  | meshC
  | collisionC
  | modelC
  | referenceC
  deriving DecidableEq, Repr

/-- Declared base class of each class (`class Joint(Object)` etc.). -/
def PyClass.base : PyClass → Option PyClass
  | .objectRoot => none
  | .objectBase => some .objectRoot
  | .locatorC => some .objectBase
  | .jointC => some .objectBase
  | .emitterC => some .objectBase
  | .meshC => some .objectBase
  | .collisionC => some .objectBase
  | .modelC => some .objectBase
  | .referenceC => some .objectBase

/-- The ancestors of a class (the class itself, then its bases). The
hierarchy has depth at most 3, so two base steps suffice. -/
def PyClass.ancestors (c : PyClass) : List PyClass :=
  c :: (match c.base with
    | none => []
    | some b => b :: (match b.base with
      | none => []
      | some b2 => [b2]))

/-- `isSubclass c d` models Python's `issubclass(c, d)`. -/
def PyClass.isSubclass (c d : PyClass) : Bool :=
  d ∈ c.ancestors

/-- Opaque transform value (`TkTransformData`); the code only stores and
forwards it, so a tag suffices. A default-constructed transform is tag 0. -/
structure TkTransformData where
  tag : Nat := 0
  deriving DecidableEq, Repr

/-- Opaque material value (`TkMaterialData(Name=...)`). -/
structure TkMaterialData where
  MatName : String
  deriving DecidableEq, Repr

/-- One `TkSceneNodeAttributeData(Name=..., Value=...)` pair. -/
structure TkSceneNodeAttributeData where
  AName : String
  AValue : PyVal
  deriving DecidableEq, Repr

/-- The output record `TkSceneNodeData`. The `Children` field holds the
values returned by each child's `get_data()` (an optional record each),
or `None` when the node had no children. -/
inductive TkSceneNodeData where
  | mk (Name : String) (TypeTag : String) (Transform : TkTransformData)
      (Attributes : Option (List TkSceneNodeAttributeData))
      (Children : Option (List (Option TkSceneNodeData)))

/-- A Python object of (a subclass of) `Object`. Fields that only some
variants create are `Option`-valued. `TypeTag` models `self._Type`. -/
structure ObjNode where
  cls : PyClass := .objectBase
  Name : String := ""
  TypeTag : String := ""
  Transform : TkTransformData := {}
  Attributes : Option (List TkSceneNodeAttributeData) := none
  Children : List Nat := []
  Parent : Option Nat := none
  IsMesh : Bool := false
  NodeData : Option TkSceneNodeData := none
  ID : Option Nat := none
  provided_streams : Finset String := ∅
  Child_Nodes : Option (List (Option TkSceneNodeData)) := none
  ListOfMeshes : Option (List Nat) := none
  CType : Option String := none
  Vertices : Option PyVal := none
  Indexes : Option PyVal := none
  Material : Option (Option TkMaterialData) := none
  UVs : Option PyVal := none
  Normals : Option PyVal := none
  Tangents : Option PyVal := none
  Width : Option PyVal := none
  Height : Option PyVal := none
  Depth : Option PyVal := none
  Radius : Option PyVal := none
  hasAttachment : Option PyVal := none
  Scenegraph : Option String := none

instance : Inhabited ObjNode := ⟨{}⟩

/-- `Object.__init__`: the base initializer. `cls` is the runtime class of
the object being initialized (not an `__init__` argument in Python; it is
intrinsic to `self`). `tr` is the optional `Transform` keyword argument. -/
def Object_init (cls : PyClass) (tr : Option TkTransformData) : ObjNode :=
  { cls := cls
    Transform := tr.getD {}
    Attributes := none
    Children := []
    Parent := none
    IsMesh := false
    NodeData := none
    ID := none
    provided_streams := ∅ }

/-- `super(declared, self).__init__(**kwargs)`: Python first checks that
`self`'s class is a subclass of `declared` (else `TypeError`), then runs
the next initializer in the MRO, which for every passing call in this file
is `Object.__init__`. -/
def super_init (declared selfCls : PyClass) (tr : Option TkTransformData) :
    Except PyError ObjNode :=
  if PyClass.isSubclass selfCls declared then .ok (Object_init selfCls tr)
  else .error .typeError

/-- The five stream names scanned by `determine_included_streams`. -/
def streamNameList : List String :=
  ["Vertices", "Indexes", "UVs", "Normals", "Tangents"]

/-- `self.__dict__.get(name, None)` restricted to the five stream names. -/
def streamVal (o : ObjNode) (nm : String) : Option PyVal :=
  if nm = "Vertices" then o.Vertices
  else if nm = "Indexes" then o.Indexes
  else if nm = "UVs" then o.UVs
  else if nm = "Normals" then o.Normals
  else if nm = "Tangents" then o.Tangents
  else none

/-- `Object.determine_included_streams`: for each of the five stream names
whose value is not `None`, add it to `provided_streams`. -/
def determine_included_streams (o : ObjNode) : ObjNode :=
  streamNameList.foldl
    (fun acc nm =>
      if (streamVal acc nm).isSome then
        { acc with provided_streams := acc.provided_streams ∪ {nm} }
      else acc)
    o

/-- `Locator.__init__(Name, **kwargs)`. -/
def Locator_init (Name : String) (attachmentKw : Option PyVal)
    (tr : Option TkTransformData) : Except PyError ObjNode := do
  let base ← super_init .locatorC .locatorC tr
  .ok { base with
          Name := Name
          TypeTag := "LOCATOR"
          hasAttachment := some (attachmentKw.getD (vBool false)) }

/-- `Joint.__init__(Name, **kwargs)`. Its first line is
`super(Locator, self).__init__(**kwargs)`, and `Joint` is not a subclass
of `Locator`, so the `super` call raises `TypeError` before anything else
runs. -/
def Joint_init (Name : String) (tr : Option TkTransformData) :
    Except PyError ObjNode := do
  let base ← super_init .locatorC .jointC tr
  .ok { base with Name := Name, TypeTag := "JOINT" }

/-- `Emitter.__init__(Name, **kwargs)`: same `super(Locator, self)` slip
as `Joint`. -/
def Emitter_init (Name : String) (tr : Option TkTransformData) :
    Except PyError ObjNode := do
  let base ← super_init .locatorC .emitterC tr
  .ok { base with Name := Name, TypeTag := "EMITTER" }

/-- `Mesh.__init__(Name, **kwargs)`. -/
def Mesh_init (Name : String)
    (Vertices Indexes UVs Normals Tangents : Option PyVal)
    (MaterialKw : Option TkMaterialData) (tr : Option TkTransformData) :
    Except PyError ObjNode := do
  let base ← super_init .meshC .meshC tr
  let m := { base with
               Name := Name
               TypeTag := "MESH"
               Vertices := Vertices
               Indexes := Indexes
               Material := some (some (MaterialKw.getD ⟨"EMPTY"⟩))
               UVs := UVs
               Normals := Normals
               Tangents := Tangents
               IsMesh := true }
  .ok (determine_included_streams m)

/-- `Collision.__init__(Name, **kwargs)`. -/
def Collision_init (Name : String) (CollisionType : Option String)
    (Vertices Indexes UVs Normals Tangents : Option PyVal)
    (WidthKw HeightKw DepthKw RadiusKw : Option PyVal)
    (tr : Option TkTransformData) : Except PyError ObjNode := do
  let base ← super_init .collisionC .collisionC tr
  let ct := CollisionType.getD "Mesh"
  let c := { base with Name := Name, TypeTag := "COLLISION", CType := some ct }
  if ct = "Mesh" then
    .ok (determine_included_streams
      { c with
          IsMesh := true
          Vertices := Vertices
          Indexes := Indexes
          Material := some none
          UVs := UVs
          Normals := Normals
          Tangents := Tangents })
  else
    .ok { c with
            Width := some (WidthKw.getD (vInt 0))
            Height := some (HeightKw.getD (vInt 0))
            Depth := some (DepthKw.getD (vInt 0))
            Radius := some (RadiusKw.getD (vInt 0)) }

/-- `Model.__init__(Name, **kwargs)`. -/
def Model_init (Name : String) (tr : Option TkTransformData) :
    Except PyError ObjNode := do
  let base ← super_init .modelC .modelC tr
  .ok { base with Name := Name, TypeTag := "MODEL", ListOfMeshes := some [] }

/-- `Reference.__init__(Name, **kwargs)`. -/
def Reference_init (Name : String) (ScenegraphKw : Option String)
    (tr : Option TkTransformData) : Except PyError ObjNode := do
  let base ← super_init .referenceC .referenceC tr
  .ok { base with
          Name := Name
          TypeTag := "REFERENCE"
          Scenegraph := some (ScenegraphKw.getD
            "Enter in the path of the SCENE.MBIN you want to reference here.") }

/-- An external data mapping (Python dict) passed to `create_attributes`. -/
abbrev PyDict : Type := List (String × PyVal)

/-- `d[k]` on a dict: `KeyError` when the key is absent. -/
def dget (d : PyDict) (k : String) : Except PyError PyVal :=
  match List.lookup k d with
  | some v => .ok v
  | none => .error (.keyError k)

/-- `data[k]` where `data` may be Python `None`; subscripting `None`
raises `TypeError`. -/
def dgetO (data : Option PyDict) (k : String) : Except PyError PyVal :=
  match data with
  | none => .error .typeError
  | some d => dget d k

/-- Abbreviation for one attribute pair. -/
def attr (nm : String) (v : PyVal) : TkSceneNodeAttributeData := ⟨nm, v⟩

/-- `Locator.create_attributes(data)`. -/
def Locator.create_attributes (o : ObjNode) (data : Option PyDict) :
    Except PyError ObjNode :=
  match data with
  | none => .ok o
  | some d => do
    let v ← dget d "ATTACHMENT"
    .ok { o with Attributes := some [attr "ATTACHMENT" v] }

/-- `Joint.create_attributes(data)`. -/
def Joint.create_attributes (o : ObjNode) (data : Option PyDict) :
    Except PyError ObjNode :=
  match data with
  | none => .ok o
  | some d => do
    let v ← dget d "JOINTINDEX"
    .ok { o with Attributes := some [attr "JOINTINDEX" v] }

/-- `Emitter.create_attributes(data)`. -/
def Emitter.create_attributes (o : ObjNode) (data : Option PyDict) :
    Except PyError ObjNode :=
  match data with
  | none => .ok o
  | some d => do
    let m ← dget d "MATERIAL"
    let dt ← dget d "DATA"
    .ok { o with Attributes := some [attr "MATERIAL" m, attr "DATA" dt] }

/-- `Mesh.create_attributes(data)`: always populates; the lookups run in
the order the `List(...)` arguments are written. -/
def Mesh.create_attributes (o : ObjNode) (data : Option PyDict) :
    Except PyError ObjNode := do
  let bs ← dgetO data "BATCHSTART"
  let bc ← dgetO data "BATCHCOUNT"
  let vs ← dgetO data "VERTRSTART"
  let ve ← dgetO data "VERTREND"
  let mat ← dgetO data "MATERIAL"
  let att ← dgetO data "ATTACHMENT"
  .ok { o with Attributes := some [attr "BATCHSTART" bs,
          attr "BATCHCOUNT" bc,
          attr "VERTRSTART" vs, attr "VERTREND" ve,
          attr "FIRSTSKINMAT" (vInt 0), attr "LASTSKINMAT" (vInt 0),
          attr "MATERIAL" mat,
          attr "MESHLINK" (vStr (o.Name ++ "Shape")),
          attr "ATTACHMENT" att] }

/-- `Collision.create_attributes(data)`: first the `(TYPE, CType)` pair,
then the sub-type specific pairs. (The partial `Attributes` value Python
leaves behind when a lookup raises is not observed by any claim; errors
are surfaced through `Except`.) -/
def Collision.create_attributes (o : ObjNode) (data : Option PyDict) :
    Except PyError ObjNode :=
  match o.CType with
  | none => .error .attributeError
  | some ct =>
    let tyAttr := attr "TYPE" (vStr ct)
    if ct = "Mesh" then do
      let bs ← dgetO data "BATCHSTART"
      let bc ← dgetO data "BATCHCOUNT"
      let vs ← dgetO data "VERTRSTART"
      let ve ← dgetO data "VERTREND"
      .ok { o with Attributes := some [tyAttr,
              attr "BATCHSTART" bs, attr "BATCHCOUNT" bc,
              attr "VERTRSTART" vs, attr "VERTREND" ve,
              attr "FIRSTSKINMAT" (vInt 0), attr "LASTSKINMAT" (vInt 0)] }
    else if ct = "Box" then do
      let w ← dgetO data "WIDTH"
      let h ← dgetO data "HEIGHT"
      let dp ← dgetO data "DEPTH"
      .ok { o with Attributes := some [tyAttr,
              attr "WIDTH" w, attr "HEIGHT" h, attr "DEPTH" dp] }
    else if ct = "Sphere" then do
      let r ← dgetO data "RADIUS"
      .ok { o with Attributes := some [tyAttr, attr "RADIUS" r] }
    else if ct = "Capsule" ∨ ct = "Cylinder" then do
      let r ← dgetO data "RADIUS"
      let h ← dgetO data "HEIGHT"
      .ok { o with Attributes := some [tyAttr,
              attr "RADIUS" r, attr "HEIGHT" h] }
    else
      .ok { o with Attributes := some [tyAttr] }

/-- `Model.create_attributes(data)`. -/
def Model.create_attributes (o : ObjNode) (data : Option PyDict) :
    Except PyError ObjNode := do
  let g ← dgetO data "GEOMETRY"
  .ok { o with Attributes := some [attr "GEOMETRY" g] }

/-- `Reference.create_attributes(data)`: ignores `data`, reads
`self.Scenegraph`. -/
def Reference.create_attributes (o : ObjNode) (_data : Option PyDict) :
    Except PyError ObjNode :=
  match o.Scenegraph with
  | none => .error .attributeError
  | some sg => .ok { o with Attributes := some [attr "SCENEGRAPH" (vStr sg)] }

/-- `Object.get_data(self)`: returns `self.NodeData`. Tree-model version
is below (`PTree.get_data`); this one reads a bare node. -/
def ObjNode.get_data (o : ObjNode) : Option TkSceneNodeData :=
  o.NodeData

/-- A node of the scene hierarchy viewed structurally: the node's own
fields plus its children as subtrees. `construct_data` never follows
`Parent`, so this tree view is faithful for the flattening pass. -/
inductive PTree where
  | node (fields : ObjNode) (children : List PTree)

/-- `get_data` on a tree node. -/
def PTree.get_data : PTree → Option TkSceneNodeData
  | .node f _ => f.NodeData

/-- Result of `construct_data` on one node: the mutated subtree, the
Python return value (`construct_data` has no `return` statement, so it is
always `None`), and the log of node names in the order their `NodeData`
assignments executed. -/
structure CRes where
  tree : PTree
  ret : Option TkSceneNodeData
  log : List String

/-- Result of the `for child in self.Children:` loop: the mutated
children, the values collected from each `child.get_data()` in order, and
the concatenated assignment log. -/
structure CLRes where
  trees : List PTree
  recs : List (Option TkSceneNodeData)
  log : List String

mutual

/-- `Object.construct_data(self)`: build every child's record first (in
sibling order), collect `child.get_data()` into `Child_Nodes` (or `None`
when there are no children), then assign `self.NodeData`. -/
def construct_data : PTree → CRes
  | .node f cs =>
    let p := construct_list cs
    let childNodes : Option (List (Option TkSceneNodeData)) :=
      if cs.length ≠ 0 then some p.recs else none
    let nd : TkSceneNodeData :=
      .mk f.Name f.TypeTag f.Transform f.Attributes childNodes
    { tree := .node { f with Child_Nodes := childNodes, NodeData := some nd }
                p.trees
      ret := none
      log := p.log ++ [f.Name] }

/-- The child loop of `construct_data`. -/
def construct_list : List PTree → CLRes
  | [] => { trees := [], recs := [], log := [] }
  | c :: rest =>
    let r := construct_data c
    let rr := construct_list rest
    { trees := r.tree :: rr.trees
      recs := PTree.get_data r.tree :: rr.recs
      log := r.log ++ rr.log }

end

/-- The object heap for tree assembly: node `i` of the list is the object
with id `i`. `Parent` / `Children` / `ListOfMeshes` store ids into it. -/
abbrev HeapState : Type := List ObjNode

/-- The node with id `i` (defaulted for dangling ids; assembly never
produces them). -/
def nodeAt (s : HeapState) (i : Nat) : ObjNode :=
  (s[i]?).getD {}

/-- `Object.give_parent(parent)` on node `c`. -/
def give_parent (s : HeapState) (c : Nat) (p : Nat) : HeapState :=
  s.set c { nodeAt s c with Parent := some p }

/-- `Object.populate_meshlist(obj)` called on node `i` with registered
object `obj`: walk `Parent` references to the parentless node and append
`obj` to its `ListOfMeshes`; a parentless node without that attribute (a
non-`Model` root) raises `AttributeError`, leaving the heap unchanged at
that point. `fuel` models Python's recursion limit. -/
def populate_meshlist (fuel : Nat) (s : HeapState) (i : Nat) (obj : Nat) :
    HeapState × Option PyError :=
  match fuel with
  | 0 => (s, some .recursionError)
  | n + 1 =>
    match s[i]? with
    | none => (s, some .invalidRef)
    | some node =>
      match node.Parent with
      | some p => populate_meshlist n s p obj
      | none =>
        match node.ListOfMeshes with
        | none => (s, some .attributeError)
        | some l =>
          (s.set i { node with ListOfMeshes := some (l ++ [obj]) }, none)

/-- `Object.add_child(child)` on parent `p` with child `c`: append `c` to
`p.Children`, set `c.Parent`, and if `c.IsMesh` register `c` upward from
`p`. The two mutations happen before `populate_meshlist` runs, so they
survive any exception it raises. -/
def add_child (fuel : Nat) (s : HeapState) (p : Nat) (c : Nat) :
    HeapState × Option PyError :=
  match s[p]?, s[c]? with
  | some pn, some cn =>
    let s1 := s.set p { pn with Children := pn.Children ++ [c] }
    let s2 := give_parent s1 c p
    if cn.IsMesh then populate_meshlist fuel s2 p c else (s2, none)
  | _, _ => (s, some .invalidRef)

/-- The chain of ids walked by `populate_meshlist` starting at `i`:
`some l` with `l` ending at the parentless node, or `none` when the fuel
runs out or an id dangles. -/
def chainList (fuel : Nat) (s : HeapState) (i : Nat) : Option (List Nat) :=
  match fuel with
  | 0 => none
  | n + 1 =>
    match s[i]? with
    | none => none
    | some node =>
      match node.Parent with
      | none => some [i]
      | some p => (chainList n s p).map (fun l => i :: l)

/-- The ids in the subtree rooted at `i`, following `Children` edges
(depth bounded by `fuel`; the root itself is included). -/
def subtreeIds (fuel : Nat) (s : HeapState) (i : Nat) : List Nat :=
  match fuel with
  | 0 => []
  | n + 1 => i :: (nodeAt s i).Children.flatMap (fun j => subtreeIds n s j)

/-- The mesh-bearing node ids of the heap, in id order. During a top-down
build, id order is exactly the order of the attachment calls. -/
def meshList (s : HeapState) : List Nat :=
  (List.range s.length).filter (fun m => (nodeAt s m).IsMesh)

/-- Per-heap well-formedness tying `ListOfMeshes` to the class: only
`Model.__init__` creates the attribute. -/
def ClassLomOK (s : HeapState) : Prop :=
  ∀ o ∈ s, o.ListOfMeshes.isSome ↔ o.cls = PyClass.modelC

/-- The variants a fresh node of the top-down builder may have. `Joint`
and `Emitter` are absent because their initializers raise `TypeError`
(see `Joint_init`). -/
inductive BuildKind where
  | locatorK
  | meshK
  | collisionK (ct : String)
  | modelK
  | referenceK
  deriving DecidableEq, Repr

/-- Whether a fresh node of this kind has `IsMesh` set by its initializer. -/
def isMeshKind : BuildKind → Bool
  | .meshK => true
  | .collisionK ct => ct = "Mesh"
  | _ => false

/-- Unwrap an initializer result that cannot fail. -/
def exceptOk (e : Except PyError ObjNode) : ObjNode :=
  match e with
  | .ok o => o
  | .error _ => {}

/-- A freshly constructed node of the given kind (default keyword
arguments; the claims about assembly depend only on `Parent`, `Children`,
`IsMesh`, `ListOfMeshes` and `cls`). -/
def mkFresh : BuildKind → ObjNode
  | .locatorK => exceptOk (Locator_init "NODE" none none)
  | .meshK => exceptOk (Mesh_init "NODE" none none none none none none none)
  | .collisionK ct =>
    exceptOk (Collision_init "NODE" (some ct)
      none none none none none none none none none none)
  | .modelK => exceptOk (Model_init "NODE" none)
  | .referenceK => exceptOk (Reference_init "NODE" none none)

/-- One build operation: attach a fresh node of kind `op.2` to the
existing node `op.1`. The fresh node's id is the current heap length. -/
def buildStep (s : HeapState) (op : Nat × BuildKind) :
    HeapState × Option PyError :=
  let s1 := s ++ [mkFresh op.2]
  add_child s1.length s1 op.1 s.length

/-- Run a list of build operations, stopping at the first error. -/
def runBuildFrom (s : HeapState) : List (Nat × BuildKind) →
    HeapState × Option PyError
  | [] => (s, none)
  | op :: rest =>
    match buildStep s op with
    | (s', none) => runBuildFrom s' rest
    | (s', some e) => (s', some e)

/-- The root `Model` every build starts from. -/
def rootModel : ObjNode := exceptOk (Model_init "ROOT" none)

/-- The initial heap: just the root `Model`, id 0. -/
def initHeap : HeapState := [rootModel]

/-- Assemble a tree top-down from the root: each operation attaches a
fresh node to an already-present one. -/
def runBuild (ops : List (Nat × BuildKind)) : HeapState × Option PyError :=
  runBuildFrom initHeap ops

/-- Validity of a build script starting from a heap with `n` nodes: each
operation names an existing parent (ids grow by one per step). -/
def validFromB (n : Nat) : List (Nat × BuildKind) → Bool
  | [] => true
  | op :: rest => decide (op.1 < n) && validFromB (n + 1) rest

/-- Validity of a build script for `runBuild` (heap starts with 1 node). -/
def validOps (ops : List (Nat × BuildKind)) : Prop :=
  validFromB 1 ops = true

/-- The ids of the mesh-bearing nodes a build script creates, in the
order of the attachment calls that register them; `base` is the id the
script's first fresh node receives. -/
def meshIdsFrom (base : Nat) : List (Nat × BuildKind) → List Nat
  | [] => []
  | op :: rest =>
    (if isMeshKind op.2 then [base] else []) ++ meshIdsFrom (base + 1) rest

/-! Concrete instances used by witnesses and counterexamples. -/

/-- A root `Model`, as `Model("Root")` builds it. -/
def exRootM : ObjNode := exceptOk (Model_init "Root" none)

/-- A second `Model`, initially parentless. -/
def exSubM : ObjNode := exceptOk (Model_init "Sub" none)

/-- A mesh-bearing node with no stream data. -/
def exMeshN : ObjNode := mkFresh .meshK

/-- Heap for the bottom-up counterexample: two parentless `Model`s and a
`Mesh`, not yet linked. -/
def exS0 : HeapState := [exRootM, exSubM, exMeshN]

/-- Bottom-up assembly: first `Sub.add_child(M)`, then
`Root.add_child(Sub)`. -/
def exS2 : HeapState := (add_child 3 (add_child 3 exS0 1 2).1 0 1).1

/-- A parentless `Locator` (a root that is not a `Model`). -/
def exLocRoot : ObjNode := mkFresh .locatorK

/-- Heap for the non-`Model`-root failure: a `Locator` root and a `Mesh`. -/
def exC10S : HeapState := [exLocRoot, exMeshN]

/-- A `Sphere` collision node, `Collision("C1", CollisionType="Sphere")`. -/
def exSphere : ObjNode :=
  exceptOk (Collision_init "C1" (some "Sphere")
    none none none none none none none none none none)

/-- A `Box` collision node. -/
def exBox : ObjNode :=
  exceptOk (Collision_init "C2" (some "Box")
    none none none none none none none none none none)

/-- A `Locator` node `Locator("L1")`. -/
def exLoc : ObjNode := exceptOk (Locator_init "L1" none none)

/-- A `Reference` node with an explicit scenegraph path. -/
def exRef : ObjNode :=
  exceptOk (Reference_init "R1" (some "MODELS/TEST/SCENE.MBIN") none)

/-- A valid top-down build script: mesh under root, locator under root,
mesh under the locator. -/
def exOps : List (Nat × BuildKind) :=
  [(0, .meshK), (0, .locatorK), (2, .meshK)]

/-- A leaf tree node (a built `Locator`). -/
def exT : PTree := .node exLoc []

/-- The invariant a top-down build maintains: node 0 is the parentless
root and its registry holds exactly the mesh-bearing ids; every other
node has a parent with a smaller id; `Children` edges match `Parent`
back-references and stay in range. -/
def InvHeap (s : HeapState) : Prop :=
  0 < s.length ∧
  (nodeAt s 0).Parent = none ∧
  (nodeAt s 0).ListOfMeshes = some (meshList s) ∧
  (∀ j, 0 < j → j < s.length → ∃ q, q < j ∧ (nodeAt s j).Parent = some q) ∧
  (∀ i j, i < s.length →
    (j ∈ (nodeAt s i).Children ↔
      i < j ∧ j < s.length ∧ (nodeAt s j).Parent = some i))

/-- C2: constructing Joint("J1") or Emitter("E1") raises TypeError, because
their initializers call super(Locator, self) and neither class inherits
from Locator; the other five variants construct fine with the right tag. -/
theorem claim_C2_bug_eval :
    Joint_init "J1" none = .error .typeError ∧
    Emitter_init "E1" none = .error .typeError ∧
    (Locator_init "L1" none none = .ok exLoc ∧ exLoc.TypeTag = "LOCATOR") ∧
    (∃ m, Mesh_init "M1" none none none none none none none = .ok m ∧
      m.TypeTag = "MESH") ∧
    (∃ c, Collision_init "C1" (some "Sphere")
        none none none none none none none none none none = .ok c ∧
      c.TypeTag = "COLLISION") ∧
    (∃ md, Model_init "MD" none = .ok md ∧ md.TypeTag = "MODEL") ∧
    (∃ r, Reference_init "R1" none none = .ok r ∧ r.TypeTag = "REFERENCE") := by
  exact ⟨rfl, rfl, ⟨rfl, rfl⟩, ⟨_, rfl, rfl⟩, ⟨_, rfl, rfl⟩, ⟨_, rfl, rfl⟩,
    ⟨_, rfl, rfl⟩⟩

/-- C5: provided_streams is exactly the streams passed non-null. -/
theorem claim_C5 (nm : String) (V I U N T : Option PyVal)
    (mat : Option TkMaterialData) (tr : Option TkTransformData) :
    ∃ m, Mesh_init nm V I U N T mat tr = .ok m ∧
      m.provided_streams =
        ((if V.isSome then {"Vertices"} else ∅) ∪
         (if I.isSome then {"Indexes"} else ∅) ∪
         (if U.isSome then {"UVs"} else ∅) ∪
         (if N.isSome then {"Normals"} else ∅) ∪
         (if T.isSome then {"Tangents"} else (∅ : Finset String))) := by
  refine ⟨_, rfl, ?_⟩
  cases V <;> cases I <;> cases U <;> cases N <;> cases T <;> rfl

/-- C6: Collision attribute emission per sub-type. -/
theorem claim_C6 (o : ObjNode) (d : PyDict) (ct : String)
    (h : o.CType = some ct) :
    (ct = "Mesh" → ∀ bs bc vs ve,
      dget d "BATCHSTART" = .ok bs → dget d "BATCHCOUNT" = .ok bc →
      dget d "VERTRSTART" = .ok vs → dget d "VERTREND" = .ok ve →
      Collision.create_attributes o (some d) = .ok { o with
        Attributes := some [attr "TYPE" (vStr ct), attr "BATCHSTART" bs,
          attr "BATCHCOUNT" bc, attr "VERTRSTART" vs,
          attr "VERTREND" ve, attr "FIRSTSKINMAT" (vInt 0),
          attr "LASTSKINMAT" (vInt 0)] }) ∧
    (ct = "Box" → ∀ w hh dp,
      dget d "WIDTH" = .ok w → dget d "HEIGHT" = .ok hh →
      dget d "DEPTH" = .ok dp →
      Collision.create_attributes o (some d) = .ok { o with
        Attributes := some [attr "TYPE" (vStr ct), attr "WIDTH" w,
          attr "HEIGHT" hh, attr "DEPTH" dp] }) ∧
    (ct = "Sphere" → ∀ r, dget d "RADIUS" = .ok r →
      Collision.create_attributes o (some d) = .ok { o with
        Attributes := some [attr "TYPE" (vStr ct), attr "RADIUS" r] }) ∧
    (ct = "Capsule" ∨ ct = "Cylinder" → ∀ r hh,
      dget d "RADIUS" = .ok r → dget d "HEIGHT" = .ok hh →
      Collision.create_attributes o (some d) = .ok { o with
        Attributes := some [attr "TYPE" (vStr ct), attr "RADIUS" r,
          attr "HEIGHT" hh] }) := by
  refine ⟨?_, ?_, ?_, ?_⟩
  · rintro rfl bs bc vs ve h1 h2 h3 h4
    simp [Collision.create_attributes, h, dgetO, h1, h2, h3, h4, attr]
    rfl
  · rintro rfl w hh dp h1 h2 h3
    simp [Collision.create_attributes, h, dgetO, h1, h2, h3, attr]
    rfl
  · rintro rfl r h1
    simp [Collision.create_attributes, h, dgetO, h1, attr]
    rfl
  · rintro (rfl | rfl) r hh h1 h2 <;>
      · simp [Collision.create_attributes, h, dgetO, h1, h2, attr]
        rfl

/-- C7: a missing required key yields a KeyError, per variant. -/
theorem claim_C7 (d : PyDict) :
    (∀ o : ObjNode, o.CType = some "Box" → List.lookup "WIDTH" d = none →
      Collision.create_attributes o (some d) = .error (.keyError "WIDTH")) ∧
    (∀ o : ObjNode, o.CType = some "Mesh" →
      List.lookup "BATCHSTART" d = none →
      Collision.create_attributes o (some d) =
        .error (.keyError "BATCHSTART")) ∧
    (∀ o : ObjNode, o.CType = some "Sphere" →
      List.lookup "RADIUS" d = none →
      Collision.create_attributes o (some d) = .error (.keyError "RADIUS")) ∧
    (∀ o : ObjNode, List.lookup "BATCHSTART" d = none →
      Mesh.create_attributes o (some d) = .error (.keyError "BATCHSTART")) ∧
    (∀ o : ObjNode, List.lookup "GEOMETRY" d = none →
      Model.create_attributes o (some d) = .error (.keyError "GEOMETRY")) ∧
    (∀ o : ObjNode, List.lookup "ATTACHMENT" d = none →
      Locator.create_attributes o (some d) =
        .error (.keyError "ATTACHMENT")) ∧
    (∀ o : ObjNode, List.lookup "JOINTINDEX" d = none →
      Joint.create_attributes o (some d) = .error (.keyError "JOINTINDEX")) ∧
    (∀ o : ObjNode, List.lookup "MATERIAL" d = none →
      Emitter.create_attributes o (some d) = .error (.keyError "MATERIAL")) := by
  refine ⟨?_, ?_, ?_, ?_, ?_, ?_, ?_, ?_⟩ <;> intro o
  · intro h hk
    simp [Collision.create_attributes, h, dgetO, dget, hk]
    rfl
  · intro h hk
    simp [Collision.create_attributes, h, dgetO, dget, hk]
    rfl
  · intro h hk
    simp [Collision.create_attributes, h, dgetO, dget, hk]
    rfl
  · intro hk
    simp [Mesh.create_attributes, dgetO, dget, hk]
    rfl
  · intro hk
    simp [Model.create_attributes, dgetO, dget, hk]
    rfl
  · intro hk
    simp [Locator.create_attributes, dgetO, dget, hk]
    rfl
  · intro hk
    simp [Joint.create_attributes, dgetO, dget, hk]
    rfl
  · intro hk
    simp [Emitter.create_attributes, dgetO, dget, hk]
    rfl

/-- C8: Locator/Joint/Emitter no-op on None data and schema otherwise;
Reference always writes (SCENEGRAPH, own path) whatever data is. -/
theorem claim_C8 :
    (∀ o : ObjNode, Locator.create_attributes o none = .ok o) ∧
    (∀ o : ObjNode, Joint.create_attributes o none = .ok o) ∧
    (∀ o : ObjNode, Emitter.create_attributes o none = .ok o) ∧
    (∀ (o : ObjNode) (d : PyDict) (v : PyVal), dget d "ATTACHMENT" = .ok v →
      Locator.create_attributes o (some d) =
        .ok { o with Attributes := some [attr "ATTACHMENT" v] }) ∧
    (∀ (o : ObjNode) (d : PyDict) (v : PyVal), dget d "JOINTINDEX" = .ok v →
      Joint.create_attributes o (some d) =
        .ok { o with Attributes := some [attr "JOINTINDEX" v] }) ∧
    (∀ (o : ObjNode) (d : PyDict) (m dt : PyVal),
      dget d "MATERIAL" = .ok m → dget d "DATA" = .ok dt →
      Emitter.create_attributes o (some d) =
        .ok { o with Attributes := some [attr "MATERIAL" m,
                attr "DATA" dt] }) ∧
    (∀ (o : ObjNode) (sg : String) (data : Option PyDict),
      o.Scenegraph = some sg →
      Reference.create_attributes o data =
        .ok { o with Attributes := some [attr "SCENEGRAPH" (vStr sg)] }) := by
  refine ⟨fun o => rfl, fun o => rfl, fun o => rfl, ?_, ?_, ?_, ?_⟩
  · intro o d v h
    simp [Locator.create_attributes, h, attr]
    rfl
  · intro o d v h
    simp [Joint.create_attributes, h, attr]
    rfl
  · intro o d m dt h1 h2
    simp [Emitter.create_attributes, h1, h2, attr]
    rfl
  · intro o sg data h
    simp [Reference.create_attributes, h, attr]

/-- Witness for C6 at Scenario D: a Sphere collision with RADIUS 5/2. -/
theorem claim_C6_witness :
    exSphere.CType = some "Sphere" ∧
    dget [("RADIUS", vRat (5 / 2))] "RADIUS" = .ok (vRat (5 / 2)) ∧
    Collision.create_attributes exSphere (some [("RADIUS", vRat (5 / 2))]) =
      .ok { exSphere with
        Attributes := some [attr "TYPE" (vStr "Sphere"),
          attr "RADIUS" (vRat (5 / 2))] } :=
  ⟨rfl, rfl,
    (claim_C6 exSphere [("RADIUS", vRat (5 / 2))] "Sphere" rfl).2.2.1 rfl
      (vRat (5 / 2)) rfl⟩

/-- Witness for C7 at Scenario E: a Box collision whose data lacks WIDTH. -/
theorem claim_C7_witness :
    exBox.CType = some "Box" ∧
    List.lookup "WIDTH" [("HEIGHT", vInt 1), ("DEPTH", vInt 2)] = none ∧
    Collision.create_attributes exBox
        (some [("HEIGHT", vInt 1), ("DEPTH", vInt 2)]) =
      .error (.keyError "WIDTH") :=
  ⟨rfl, rfl, (claim_C7 [("HEIGHT", vInt 1), ("DEPTH", vInt 2)]).1 exBox rfl rfl⟩

/-- Witness for C8: Scenario A (Locator with None data), a Locator given
attachment data, and a Reference ignoring its data argument. -/
theorem claim_C8_witness :
    Locator.create_attributes exLoc none = .ok exLoc ∧
    dget [("ATTACHMENT", vStr "AT")] "ATTACHMENT" = .ok (vStr "AT") ∧
    Locator.create_attributes exLoc (some [("ATTACHMENT", vStr "AT")]) =
      .ok { exLoc with Attributes := some [attr "ATTACHMENT" (vStr "AT")] } ∧
    exRef.Scenegraph = some "MODELS/TEST/SCENE.MBIN" ∧
    Reference.create_attributes exRef none =
      .ok { exRef with
        Attributes := some [attr "SCENEGRAPH"
          (vStr "MODELS/TEST/SCENE.MBIN")] } :=
  ⟨claim_C8.1 exLoc, rfl,
    claim_C8.2.2.2.1 exLoc [("ATTACHMENT", vStr "AT")] (vStr "AT") rfl, rfl,
    claim_C8.2.2.2.2.2.2 exRef "MODELS/TEST/SCENE.MBIN" none rfl⟩

theorem construct_list_trees (cs : List PTree) :
    (construct_list cs).trees = cs.map (fun c => (construct_data c).tree) := by
  induction cs with
  | nil => simp [construct_list]
  | cons c rest ih => simp [construct_list, ih]

theorem construct_list_recs (cs : List PTree) :
    (construct_list cs).recs =
      cs.map (fun c => PTree.get_data (construct_data c).tree) := by
  induction cs with
  | nil => simp [construct_list]
  | cons c rest ih => simp [construct_list, ih]

theorem construct_list_log (cs : List PTree) :
    (construct_list cs).log =
      (cs.map (fun c => (construct_data c).log)).flatten := by
  induction cs with
  | nil => simp [construct_list]
  | cons c rest ih => simp [construct_list, ih]


/-- C3: after construct_data, the node's record lists the children's own
records, in sibling order (absent when there are no children), and the
record-assignment log puts every child's assignment before the parent's. -/
theorem claim_C3 (f : ObjNode) (cs : List PTree) :
    PTree.get_data ((construct_data (.node f cs)).tree) =
      some (TkSceneNodeData.mk f.Name f.TypeTag f.Transform f.Attributes
        (if cs.length ≠ 0
          then some (cs.map (fun c => PTree.get_data (construct_data c).tree))
          else none)) ∧
    (construct_data (.node f cs)).log =
      (cs.map (fun c => (construct_data c).log)).flatten ++ [f.Name] := by
  constructor
  · simp [construct_data, PTree.get_data, construct_list_recs]
  · simp [construct_data, construct_list_log]

/-- C4 counterexample: on a concrete leaf node, construct_data stores a
record in NodeData but returns None, so the Python return value is not
the built record. -/
theorem claim_C4_counterexample :
    (construct_data exT).ret = none ∧
    PTree.get_data (construct_data exT).tree =
      some (TkSceneNodeData.mk "L1" "LOCATOR" {} none none) ∧
    (construct_data exT).ret ≠ PTree.get_data (construct_data exT).tree := by
  refine ⟨rfl, rfl, ?_⟩
  have h1 : (construct_data exT).ret = none := rfl
  have h2 : PTree.get_data (construct_data exT).tree =
      some (TkSceneNodeData.mk "L1" "LOCATOR" {} none none) := rfl
  rw [h1, h2]
  simp

/-- C4 amended: construct_data always returns None (it has no return
statement); the newly built record is stored in NodeData, where get_data
retrieves it. -/
theorem claim_C4_amended (f : ObjNode) (cs : List PTree) :
    (construct_data (.node f cs)).ret = none ∧
    PTree.get_data ((construct_data (.node f cs)).tree) =
      some (TkSceneNodeData.mk f.Name f.TypeTag f.Transform f.Attributes
        (if cs.length ≠ 0 then some (construct_list cs).recs else none)) := by
  constructor
  · simp [construct_data]
  · simp [construct_data, PTree.get_data]

/-- C9: construct_data is idempotent: rebuilding the already-built tree
reproduces the same mutated tree, the same records and the same log. -/
theorem claim_C9 (t : PTree) :
    construct_data ((construct_data t).tree) = construct_data t := by
  refine @PTree.rec
    (fun t => construct_data ((construct_data t).tree) = construct_data t)
    (fun cs => construct_list ((construct_list cs).trees) = construct_list cs)
    ?_ ?_ ?_ t
  · intro f cs ih
    have hlen : (construct_list cs).trees.length = cs.length := by
      rw [construct_list_trees]
      simp
    simp only [construct_data]
    rw [ih, hlen]
  · simp [construct_list]
  · intro c rest ihc ihr
    simp only [construct_list]
    rw [ihc, ihr]

theorem chainList_ne_nil (n : Nat) (s : HeapState) (i : Nat) (L : List Nat)
    (h : chainList n s i = some L) : L ≠ [] := by
  match n with
  | 0 => simp [chainList] at h
  | Nat.succ m =>
    simp only [chainList] at h
    split at h
    · simp at h
    · split at h
      · simp at h
        simp [← h]
      · simp at h
        obtain ⟨l, _, hL⟩ := h
        simp [← hL]

theorem chainList_mem_isSome (n : Nat) (s : HeapState) :
    ∀ (i : Nat) (L : List Nat), chainList n s i = some L →
      ∀ j ∈ L, ∃ o, s[j]? = some o := by
  induction n with
  | zero => intro i L h; simp [chainList] at h
  | succ m ih =>
    intro i L h j hj
    simp only [chainList] at h
    split at h
    · simp at h
    · rename_i o hsi
      split at h
      · simp at h
        subst h
        simp at hj
        subst hj
        exact ⟨o, hsi⟩
      · rename_i p hpar
        simp at h
        obtain ⟨l, hl, hL⟩ := h
        subst hL
        rcases List.mem_cons.mp hj with rfl | hj'
        · exact ⟨o, hsi⟩
        · exact ih p l hl j hj'

theorem populate_fail (s s2 : HeapState) (c r : Nat) :
    ∀ (n i : Nat) (L : List Nat), chainList n s i = some L →
    (∀ j ∈ L, ∃ o o2, s[j]? = some o ∧ s2[j]? = some o2 ∧
      o2.Parent = o.Parent ∧ o2.ListOfMeshes = o.ListOfMeshes) →
    L.getLast? = some r →
    (∀ o, s[r]? = some o → o.ListOfMeshes = none) →
    populate_meshlist n s2 i c = (s2, some .attributeError) := by
  intro n
  induction n with
  | zero => intro i L h; simp [chainList] at h
  | succ m ih =>
    intro i L hch hagree hlast hrl
    simp only [chainList] at hch
    split at hch
    · simp at hch
    · rename_i o hsi
      split at hch
      · rename_i hpar
        simp at hch
        subst hch
        obtain ⟨o', o2, hso, hs2o, hpar2, hlom2⟩ := hagree i (by simp)
        rw [hsi] at hso
        obtain rfl : o = o' := Option.some.inj hso
        have hri : r = i := by
          simp at hlast
          exact hlast.symm
        subst hri
        have hlom : o.ListOfMeshes = none := hrl o hsi
        simp only [populate_meshlist, hs2o, hpar2, hpar, hlom2, hlom]
      · rename_i p hpar
        simp at hch
        obtain ⟨l, hl, hL⟩ := hch
        subst hL
        have hlne : l ≠ [] := chainList_ne_nil m s p l hl
        obtain ⟨o', o2, hso, hs2o, hpar2, hlom2⟩ :=
          hagree i (List.mem_cons_self i l)
        rw [hsi] at hso
        obtain rfl : o = o' := Option.some.inj hso
        have hlast' : l.getLast? = some r := by
          rcases l with _ | ⟨x, xs⟩
          · exact absurd rfl hlne
          · simpa using hlast
        have hagree' : ∀ j ∈ l, ∃ o o2, s[j]? = some o ∧ s2[j]? = some o2 ∧
            o2.Parent = o.Parent ∧ o2.ListOfMeshes = o.ListOfMeshes :=
          fun j hj => hagree j (List.mem_cons_of_mem i hj)
        have hrec := ih p l hl hagree' hlast' hrl
        simp only [populate_meshlist, hs2o, hpar2, hpar]
        exact hrec

/-- C10: attaching a mesh-bearing child under a root that is not a Model
raises AttributeError (only Model creates ListOfMeshes), and the error
comes after the child is already appended and parented: no rollback. -/
theorem claim_C10 (fuel : Nat) (s : HeapState) (p c : Nat)
    (pn cn rn : ObjNode) (L : List Nat) (r : Nat)
    (hp : s[p]? = some pn) (hc : s[c]? = some cn)
    (hmesh : cn.IsMesh = true) (hne : c ≠ p)
    (hchain : chainList fuel s p = some L) (hcL : c ∉ L)
    (hlast : L.getLast? = some r) (hr : s[r]? = some rn)
    (hwf : ClassLomOK s) (hcls : rn.cls ≠ PyClass.modelC) :
    ∃ s2, add_child fuel s p c = (s2, some PyError.attributeError) ∧
      (nodeAt s2 p).Children = pn.Children ++ [c] ∧
      (nodeAt s2 c).Parent = some p := by
  have hrlom : rn.ListOfMeshes = none := by
    have hmem : rn ∈ s := List.getElem?_mem hr
    have hiff := hwf rn hmem
    rcases hlm : rn.ListOfMeshes with _ | l
    · rfl
    · exact absurd (hiff.mp (by simp [hlm])) hcls
  have hplen : p < s.length := (List.getElem?_eq_some.mp hp).1
  have hclen : c < s.length := (List.getElem?_eq_some.mp hc).1
  have hpc : p ≠ c := Ne.symm hne
  -- the two mutations that precede the registry walk
  have hs1c : (s.set p { pn with Children := pn.Children ++ [c] })[c]? =
      some cn := by
    rw [List.getElem?_set_ne hpc]
    exact hc
  have hn1c : nodeAt (s.set p { pn with Children := pn.Children ++ [c] }) c
      = cn := by
    simp [nodeAt, hs1c]
  refine ⟨(s.set p { pn with Children := pn.Children ++ [c] }).set c
    { cn with Parent := some p }, ?_, ?_, ?_⟩
  · simp only [add_child, hp, hc, hmesh, give_parent, hn1c, if_true]
    refine populate_fail s _ c r fuel p L hchain ?_ hlast ?_
    · intro j hj
      have hjc : j ≠ c := fun h => hcL (h ▸ hj)
      obtain ⟨o, ho⟩ := chainList_mem_isSome fuel s p L hchain j hj
      by_cases hjp : j = p
      · subst hjp
        rw [hp] at ho
        obtain rfl : pn = o := Option.some.inj ho
        refine ⟨pn, { pn with Children := pn.Children ++ [c] }, hp, ?_,
          rfl, rfl⟩
        rw [List.getElem?_set_ne (Ne.symm hjc), List.getElem?_set_self hplen]
      · refine ⟨o, o, ho, ?_, rfl, rfl⟩
        rw [List.getElem?_set_ne (Ne.symm hjc), List.getElem?_set_ne
          (fun h => hjp h.symm)]
        exact ho
    · intro o ho
      rw [hr] at ho
      obtain rfl : rn = o := Option.some.inj ho
      exact hrlom
  · have : ((s.set p { pn with Children := pn.Children ++ [c] }).set c
        { cn with Parent := some p })[p]? =
        some { pn with Children := pn.Children ++ [c] } := by
      rw [List.getElem?_set_ne hne, List.getElem?_set_self hplen]
    simp [nodeAt, this]
  · have : ((s.set p { pn with Children := pn.Children ++ [c] }).set c
        { cn with Parent := some p })[c]? = some { cn with Parent := some p } := by
      rw [List.getElem?_set_self]
      rw [List.length_set]
      exact hclen
    simp [nodeAt, this]

/-- Witness for C10: a Locator root with a Mesh attached directly under
it; the attach raises AttributeError but the links are already made. -/
theorem claim_C10_witness :
    exC10S[0]? = some exLocRoot ∧ exC10S[1]? = some exMeshN ∧
    exMeshN.IsMesh = true ∧ (1 : Nat) ≠ 0 ∧
    chainList 2 exC10S 0 = some [0] ∧ (1 : Nat) ∉ ([0] : List Nat) ∧
    ([0] : List Nat).getLast? = some 0 ∧
    ClassLomOK exC10S ∧ exLocRoot.cls ≠ PyClass.modelC ∧
    ∃ s2, add_child 2 exC10S 0 1 = (s2, some PyError.attributeError) ∧
      (nodeAt s2 0).Children = exLocRoot.Children ++ [1] ∧
      (nodeAt s2 1).Parent = some 0 := by
  have hwf : ClassLomOK exC10S := by
    intro o ho
    simp only [exC10S, List.mem_cons, List.not_mem_nil, or_false] at ho
    rcases ho with rfl | rfl <;> decide
  refine ⟨rfl, rfl, rfl, by decide, rfl, by decide, rfl, hwf, by decide, ?_⟩
  exact claim_C10 2 exC10S 0 1 exLocRoot exMeshN exLocRoot [0] 0
    rfl rfl rfl (by decide) rfl (by decide) rfl rfl hwf (by decide)

/-- C1 counterexample: assemble bottom-up: Sub.add_child(M) while Sub is
still parentless, then Root.add_child(Sub). Both calls succeed; the final
tree has parentless root 0 whose subtree contains the mesh node 2, but
the root's registry is empty: the mesh stayed registered on Sub. -/
theorem claim_C1_counterexample :
    (add_child 3 exS0 1 2).2 = none ∧
    (add_child 3 (add_child 3 exS0 1 2).1 0 1).2 = none ∧
    (nodeAt exS2 0).Parent = none ∧
    (nodeAt exS2 2).IsMesh = true ∧
    2 ∈ subtreeIds 3 exS2 0 ∧
    (nodeAt exS2 0).ListOfMeshes = some [] ∧
    2 ∉ ([] : List Nat) ∧
    (nodeAt exS2 1).ListOfMeshes = some [2] := by
  refine ⟨rfl, rfl, rfl, rfl, by decide, rfl, by decide, rfl⟩

theorem getElem?_nodeAt (s : HeapState) (i : Nat) (h : i < s.length) :
    s[i]? = some (nodeAt s i) := by
  simp [nodeAt, List.getElem?_eq_getElem h]

theorem determine_preserves (o : ObjNode) :
    (determine_included_streams o).cls = o.cls ∧
    (determine_included_streams o).Parent = o.Parent ∧
    (determine_included_streams o).Children = o.Children ∧
    (determine_included_streams o).IsMesh = o.IsMesh ∧
    (determine_included_streams o).ListOfMeshes = o.ListOfMeshes := by
  simp only [determine_included_streams, streamNameList, List.foldl]
  split_ifs <;> simp

theorem mkFresh_spec (k : BuildKind) :
    (mkFresh k).Parent = none ∧
    (mkFresh k).Children = [] ∧
    (mkFresh k).IsMesh = isMeshKind k ∧
    (mkFresh k).ListOfMeshes = (if k = .modelK then some [] else none) := by
  cases k with
  | locatorK => exact ⟨rfl, rfl, rfl, rfl⟩
  | meshK => exact ⟨rfl, rfl, rfl, rfl⟩
  | modelK => exact ⟨rfl, rfl, rfl, rfl⟩
  | referenceK => exact ⟨rfl, rfl, rfl, rfl⟩
  | collisionK ct =>
    by_cases hct : ct = "Mesh"
    · subst hct
      exact ⟨rfl, rfl, rfl, rfl⟩
    · have he : mkFresh (.collisionK ct) =
          { cls := .collisionC, Name := "NODE", TypeTag := "COLLISION",
            CType := some ct, Width := some (vInt 0),
            Height := some (vInt 0), Depth := some (vInt 0),
            Radius := some (vInt 0) } := by
        simp only [mkFresh, exceptOk, Collision_init, super_init,
          Object_init, Option.getD]
        simp [hct]
        rfl
      rw [he]
      simp [isMeshKind, hct]

theorem populate_ok (s : HeapState) (c : Nat) (R : List Nat)
    (h0 : (nodeAt s 0).Parent = none)
    (hlom : (nodeAt s 0).ListOfMeshes = some R)
    (hpar : ∀ j, 0 < j → j < s.length →
      ∃ q, q < j ∧ (nodeAt s j).Parent = some q) :
    ∀ i fuel, i < s.length → i < fuel →
      populate_meshlist fuel s i c =
        (s.set 0 { nodeAt s 0 with ListOfMeshes := some (R ++ [c]) },
          none) := by
  intro i
  induction i using Nat.strong_induction_on with
  | _ i ih =>
    intro fuel hi hif
    obtain ⟨f, rfl⟩ : ∃ f, fuel = f + 1 := ⟨fuel - 1, by omega⟩
    by_cases hz : i = 0
    · subst hz
      simp only [populate_meshlist, getElem?_nodeAt s 0 hi, h0, hlom]
    · obtain ⟨q, hq, hpq⟩ := hpar i (Nat.pos_of_ne_zero hz) hi
      simp only [populate_meshlist, getElem?_nodeAt s i hi, hpq]
      exact ih q hq f (lt_trans hq hi) (by omega)

theorem nodeAt_append_lt (s : HeapState) (o : ObjNode) (j : Nat)
    (h : j < s.length) : nodeAt (s ++ [o]) j = nodeAt s j := by
  simp [nodeAt, List.getElem?_append_left h]

theorem nodeAt_append_self (s : HeapState) (o : ObjNode) :
    nodeAt (s ++ [o]) s.length = o := by
  simp [nodeAt, List.getElem?_concat_length]

theorem nodeAt_set_self (s : HeapState) (i : Nat) (o : ObjNode)
    (h : i < s.length) : nodeAt (s.set i o) i = o := by
  simp [nodeAt, List.getElem?_set_self h]

theorem nodeAt_set_ne (s : HeapState) (i j : Nat) (o : ObjNode)
    (h : i ≠ j) : nodeAt (s.set i o) j = nodeAt s j := by
  simp [nodeAt, List.getElem?_set_ne h]

theorem meshList_snoc (s s' : HeapState) (hlen : s'.length = s.length + 1)
    (hold : ∀ j, j < s.length →
      (nodeAt s' j).IsMesh = (nodeAt s j).IsMesh) :
    meshList s' = meshList s ++
      (if (nodeAt s' s.length).IsMesh then [s.length] else []) := by
  unfold meshList
  rw [hlen, List.range_succ, List.filter_append]
  congr 1
  · apply List.filter_congr
    intro x hx
    rw [List.mem_range] at hx
    exact hold x hx
  · simp [List.filter_singleton]

theorem build_step_inv (s : HeapState) (p : Nat) (k : BuildKind)
    (hInv : InvHeap s) (hp : p < s.length) :
    (buildStep s (p, k)).2 = none ∧
    InvHeap (buildStep s (p, k)).1 ∧
    (buildStep s (p, k)).1.length = s.length + 1 ∧
    meshList (buildStep s (p, k)).1 =
      meshList s ++ (if isMeshKind k then [s.length] else []) := by
  obtain ⟨hlen0, h0par, h0lom, hchain, hcoh⟩ := hInv
  obtain ⟨hfP, hfC, hfM, hfL⟩ := mkFresh_spec k
  have hNpos : 0 < s.length := hlen0
  have hpN : p ≠ s.length := Nat.ne_of_lt hp
  have hNne0 : s.length ≠ 0 := Nat.pos_iff_ne_zero.mp (Nat.lt_of_le_of_lt
    (Nat.zero_le p) hp)
  -- the three intermediate heaps of one step
  have hs1len : (s ++ [mkFresh k]).length = s.length + 1 := by simp
  have f1 : (s ++ [mkFresh k])[p]? = some (nodeAt s p) := by
    rw [List.getElem?_append_left hp]
    exact getElem?_nodeAt s p hp
  have f2 : (s ++ [mkFresh k])[s.length]? = some (mkFresh k) :=
    List.getElem?_concat_length s (mkFresh k)
  have hs2len : (((s ++ [mkFresh k]).set p
      { nodeAt s p with
        Children := (nodeAt s p).Children ++ [s.length] })).length =
      s.length + 1 := by simp
  have f5 : nodeAt ((s ++ [mkFresh k]).set p
      { nodeAt s p with
        Children := (nodeAt s p).Children ++ [s.length] }) s.length =
      mkFresh k := by
    rw [nodeAt_set_ne _ _ _ _ hpN, nodeAt_append_self]
  set s3 : HeapState := (((s ++ [mkFresh k]).set p
    { nodeAt s p with
      Children := (nodeAt s p).Children ++ [s.length] })).set s.length
    { mkFresh k with Parent := some p } with hs3
  have hs3len : s3.length = s.length + 1 := by simp [hs3]
  have hadd : buildStep s (p, k) =
      (if (mkFresh k).IsMesh then populate_meshlist (s.length + 1) s3 p
        s.length else (s3, none)) := by
    simp only [buildStep, add_child, give_parent, hs1len, f1, f2, f5, hs3]
  -- node views on s3
  have n3N : nodeAt s3 s.length = { mkFresh k with Parent := some p } := by
    rw [hs3]
    exact nodeAt_set_self _ _ _ (by rw [hs2len]; omega)
  have n3p : nodeAt s3 p =
      { nodeAt s p with
        Children := (nodeAt s p).Children ++ [s.length] } := by
    rw [hs3, nodeAt_set_ne _ _ _ _ (Ne.symm hpN)]
    exact nodeAt_set_self _ _ _ (by simp [hp, Nat.lt_succ_of_lt])
  have n3old : ∀ j, j < s.length → j ≠ p → nodeAt s3 j = nodeAt s j := by
    intro j hj hjp
    rw [hs3, nodeAt_set_ne _ _ _ _ (fun h => (Nat.ne_of_lt hj) h.symm),
      nodeAt_set_ne _ _ _ _ (fun h => hjp h.symm)]
    exact nodeAt_append_lt s _ j hj
  have hppres : ∀ j, j < s.length →
      (nodeAt s3 j).Parent = (nodeAt s j).Parent := by
    intro j hj
    by_cases hjp : j = p
    · subst hjp
      rw [n3p]
    · rw [n3old j hj hjp]
  have hlpres : ∀ j, j < s.length →
      (nodeAt s3 j).ListOfMeshes = (nodeAt s j).ListOfMeshes := by
    intro j hj
    by_cases hjp : j = p
    · subst hjp
      rw [n3p]
    · rw [n3old j hj hjp]
  have hmpres : ∀ j, j < s.length →
      (nodeAt s3 j).IsMesh = (nodeAt s j).IsMesh := by
    intro j hj
    by_cases hjp : j = p
    · subst hjp
      rw [n3p]
    · rw [n3old j hj hjp]
  have hcpres : ∀ j, j < s.length → j ≠ p →
      (nodeAt s3 j).Children = (nodeAt s j).Children := by
    intro j hj hjp
    rw [n3old j hj hjp]
  -- invariant pieces for s3
  have h03 : (nodeAt s3 0).Parent = none := by
    rw [hppres 0 hNpos]
    exact h0par
  have hl03 : (nodeAt s3 0).ListOfMeshes = some (meshList s) := by
    rw [hlpres 0 hNpos]
    exact h0lom
  have hpar3 : ∀ j, 0 < j → j < s3.length →
      ∃ q, q < j ∧ (nodeAt s3 j).Parent = some q := by
    intro j hj0 hjlen
    rw [hs3len] at hjlen
    by_cases hjN : j = s.length
    · subst hjN
      exact ⟨p, hp, by rw [n3N]⟩
    · have hj : j < s.length := by omega
      obtain ⟨q, hq, hqp⟩ := hchain j hj0 hj
      exact ⟨q, hq, by rw [hppres j hj]; exact hqp⟩
  have hcoh3 : ∀ i j, i < s3.length →
      (j ∈ (nodeAt s3 i).Children ↔
        i < j ∧ j < s3.length ∧ (nodeAt s3 j).Parent = some i) := by
    intro i j hi
    rw [hs3len] at hi
    rw [hs3len]
    by_cases hiN : i = s.length
    · subst hiN
      rw [n3N]
      simp only [hfC]
      constructor
      · intro hmem
        exact absurd hmem (List.not_mem_nil j)
      · rintro ⟨h1, h2, _⟩
        omega
    · have hiS : i < s.length := by omega
      by_cases hip : i = p
      · subst hip
        rw [n3p]
        constructor
        · intro hmem
          rcases List.mem_append.mp hmem with hmem | hmem
          · obtain ⟨h1, h2, h3⟩ := (hcoh i j hiS).mp hmem
            exact ⟨h1, by omega, by rw [hppres j h2]; exact h3⟩
          · have hjN : j = s.length := by simpa using hmem
            subst hjN
            exact ⟨hp, by omega, by rw [n3N]⟩
        · rintro ⟨h1, h2, h3⟩
          by_cases hjN : j = s.length
          · subst hjN
            simp
          · have hj : j < s.length := by omega
            rw [hppres j hj] at h3
            exact List.mem_append.mpr (Or.inl ((hcoh i j hiS).mpr
              ⟨h1, hj, h3⟩))
      · rw [hcpres i hiS hip]
        constructor
        · intro hmem
          obtain ⟨h1, h2, h3⟩ := (hcoh i j hiS).mp hmem
          exact ⟨h1, by omega, by rw [hppres j h2]; exact h3⟩
        · rintro ⟨h1, h2, h3⟩
          by_cases hjN : j = s.length
          · subst hjN
            rw [n3N] at h3
            simp at h3
            exact absurd h3.symm hip
          · have hj : j < s.length := by omega
            rw [hppres j hj] at h3
            exact (hcoh i j hiS).mpr ⟨h1, hj, h3⟩
  cases hm : isMeshKind k with
  | false =>
    have hnm : (mkFresh k).IsMesh = false := by rw [hfM, hm]
    rw [hadd, hnm, if_neg Bool.false_ne_true]
    have hml : meshList s3 = meshList s := by
      have := meshList_snoc s s3 hs3len hmpres
      rw [n3N] at this
      simp only [hfM, hm] at this
      simpa using this
    refine ⟨rfl, ⟨by rw [hs3len]; omega, h03, by rw [hml]; exact hl03,
      hpar3, hcoh3⟩, hs3len, by rw [hml]; simp⟩
  | true =>
    have hnm : (mkFresh k).IsMesh = true := by rw [hfM, hm]
    rw [hadd, hnm, if_pos rfl]
    have hpop := populate_ok s3 s.length (meshList s) h03 hl03 hpar3 p
      (s.length + 1) (by omega) (by omega)
    rw [hpop]
    -- the final heap s4
    have h0len3 : 0 < s3.length := by omega
    have n40 : nodeAt (s3.set 0 { nodeAt s3 0 with
        ListOfMeshes := some (meshList s ++ [s.length]) }) 0 =
        { nodeAt s3 0 with
          ListOfMeshes := some (meshList s ++ [s.length]) } :=
      nodeAt_set_self _ _ _ h0len3
    have n4ne : ∀ j, j ≠ 0 →
        nodeAt (s3.set 0 { nodeAt s3 0 with
          ListOfMeshes := some (meshList s ++ [s.length]) }) j =
        nodeAt s3 j := by
      intro j hj
      exact nodeAt_set_ne _ _ _ _ (fun h => hj h.symm)
  
    have hs4len : (s3.set 0 { nodeAt s3 0 with
        ListOfMeshes := some (meshList s ++ [s.length]) }).length =
        s.length + 1 := by simp [hs3len]
    have hpar4 : ∀ j, (nodeAt (s3.set 0 { nodeAt s3 0 with
        ListOfMeshes := some (meshList s ++ [s.length]) }) j).Parent =
        (nodeAt s3 j).Parent := by
      intro j
      by_cases hj : j = 0
      · subst hj
        rw [n40]
      · rw [n4ne j hj]
    have hchl4 : ∀ j, (nodeAt (s3.set 0 { nodeAt s3 0 with
        ListOfMeshes := some (meshList s ++ [s.length]) }) j).Children =
        (nodeAt s3 j).Children := by
      intro j
      by_cases hj : j = 0
      · subst hj
        rw [n40]
      · rw [n4ne j hj]
    have hmsh4 : ∀ j, (nodeAt (s3.set 0 { nodeAt s3 0 with
        ListOfMeshes := some (meshList s ++ [s.length]) }) j).IsMesh =
        (nodeAt s3 j).IsMesh := by
      intro j
      by_cases hj : j = 0
      · subst hj
        rw [n40]
      · rw [n4ne j hj]
    have hml4 : meshList (s3.set 0 { nodeAt s3 0 with
        ListOfMeshes := some (meshList s ++ [s.length]) }) =
        meshList s ++ [s.length] := by
      have hstep := meshList_snoc s _ hs4len (fun j hj => by
        rw [hmsh4 j, hmpres j hj])
      rw [hstep, hmsh4 s.length, n3N]
      simp [hfM, hm]
    refine ⟨rfl, ⟨by rw [hs4len]; omega, ?_, ?_, ?_, ?_⟩, hs4len,
      by rw [hml4]; simp⟩
    · rw [n40]
      exact h03
    · rw [n40, hml4]
    · intro j hj0 hjlen
      rw [hs4len] at hjlen
      obtain ⟨q, hq, hqp⟩ := hpar3 j hj0 (by omega)
      exact ⟨q, hq, by rw [hpar4 j]; exact hqp⟩
    · intro i j hi
      rw [hs4len] at hi
      rw [hchl4 i, hpar4 j, hs4len]
      have := hcoh3 i j (by omega)
      rw [hs3len] at this
      exact this

theorem runBuildFrom_inv (ops : List (Nat × BuildKind)) :
    ∀ s : HeapState, InvHeap s → validFromB s.length ops = true →
      (runBuildFrom s ops).2 = none ∧
      InvHeap (runBuildFrom s ops).1 ∧
      (runBuildFrom s ops).1.length = s.length + ops.length ∧
      meshList (runBuildFrom s ops).1 =
        meshList s ++ meshIdsFrom s.length ops := by
  induction ops with
  | nil =>
    intro s hInv hval
    simp [runBuildFrom, meshIdsFrom, hInv]
  | cons op rest ih =>
    obtain ⟨p, k⟩ := op
    intro s hInv hval
    simp only [validFromB, Bool.and_eq_true, decide_eq_true_eq] at hval
    obtain ⟨hplt, hvrest⟩ := hval
    obtain ⟨hnone, hInv', hlen', hml'⟩ := build_step_inv s p k hInv hplt
    rcases hbs : buildStep s (p, k) with ⟨s', e⟩
    rw [hbs] at hnone hInv' hlen' hml'
    simp only at hnone hInv' hlen' hml'
    subst hnone
    simp only [runBuildFrom, hbs]
    have hslen : s'.length = s.length + 1 := hlen'
    have hrest := ih s' hInv' (by rw [hslen]; exact hvrest)
    obtain ⟨r1, r2, r3, r4⟩ := hrest
    refine ⟨r1, r2, by rw [r3, hslen, List.length_cons]; omega, ?_⟩
    rw [r4, hml', hslen]
    simp [meshIdsFrom, List.append_assoc]

theorem initHeap_inv : InvHeap initHeap := by
  refine ⟨by simp [initHeap], rfl, rfl, ?_, ?_⟩
  · intro j h0 hlen
    simp [initHeap] at hlen
    omega
  · intro i j hi
    simp [initHeap] at hi
    subst hi
    constructor
    · intro hmem
      have hC : (nodeAt initHeap 0).Children = [] := rfl
      rw [hC] at hmem
      exact absurd hmem (List.not_mem_nil j)
    · rintro ⟨h1, h2, _⟩
      simp [initHeap] at h2
      omega

theorem subtreeIds_bound (s : HeapState) (hInv : InvHeap s) :
    ∀ n i, i < s.length → ∀ m, m ∈ subtreeIds n s i → m < s.length := by
  obtain ⟨_, _, _, _, hcoh⟩ := hInv
  intro n
  induction n with
  | zero =>
    intro i hi m hm
    simp [subtreeIds] at hm
  | succ f ih =>
    intro i hi m hm
    simp only [subtreeIds] at hm
    rcases List.mem_cons.mp hm with rfl | hm'
    · exact hi
    · obtain ⟨j, hjmem, hmj⟩ := List.mem_flatMap.mp hm'
      have hj : j < s.length := ((hcoh i j hi).mp hjmem).2.1
      exact ih j hj m hmj

theorem subtreeIds_mono (s : HeapState) :
    ∀ n i, subtreeIds n s i ⊆ subtreeIds (n + 1) s i := by
  intro n
  induction n with
  | zero =>
    intro i m hm
    simp [subtreeIds] at hm
  | succ f ih =>
    intro i m hm
    simp only [subtreeIds] at hm ⊢
    rcases List.mem_cons.mp hm with rfl | hm'
    · exact List.mem_cons_self _ _
    · obtain ⟨j, hjmem, hmj⟩ := List.mem_flatMap.mp hm'
      exact List.mem_cons_of_mem _
        (List.mem_flatMap.mpr ⟨j, hjmem, ih j hmj⟩)

theorem subtreeIds_mono_le (s : HeapState) :
    ∀ b a, a ≤ b → ∀ i, subtreeIds a s i ⊆ subtreeIds b s i := by
  intro b
  induction b with
  | zero =>
    intro a ha i
    have : a = 0 := by omega
    subst this
    exact fun m hm => hm
  | succ f ih =>
    intro a ha i
    by_cases hab : a = f + 1
    · subst hab
      exact fun m hm => hm
    · have ha' : a ≤ f := by omega
      exact fun m hm => subtreeIds_mono s f i (ih a ha' i hm)

theorem subtreeIds_child_step (s : HeapState) :
    ∀ n r i j, i ∈ subtreeIds n s r → j ∈ (nodeAt s i).Children →
      j ∈ subtreeIds (n + 1) s r := by
  intro n
  induction n with
  | zero =>
    intro r i j hi _
    simp [subtreeIds] at hi
  | succ f ih =>
    intro r i j hi hj
    simp only [subtreeIds] at hi
    rcases List.mem_cons.mp hi with rfl | hi'
    · simp only [subtreeIds]
      refine List.mem_cons_of_mem _ (List.mem_flatMap.mpr ⟨j, hj, ?_⟩)
      simp [subtreeIds]
    · obtain ⟨c, hcmem, hic⟩ := List.mem_flatMap.mp hi'
      have hrec := ih c i j hic hj
      simp only [subtreeIds]
      exact List.mem_cons_of_mem _ (List.mem_flatMap.mpr ⟨c, hcmem, hrec⟩)

theorem subtreeIds_cover (s : HeapState) (hInv : InvHeap s) :
    ∀ m, m < s.length → m ∈ subtreeIds s.length s 0 := by
  have hcov : ∀ m, m < s.length → m ∈ subtreeIds (m + 1) s 0 := by
    obtain ⟨hlen0, h0par, h0lom, hchain, hcoh⟩ := hInv
    intro m
    induction m using Nat.strong_induction_on with
    | _ m ih =>
      intro hm
      by_cases hz : m = 0
      · subst hz
        simp [subtreeIds]
      · obtain ⟨q, hq, hqp⟩ := hchain m (Nat.pos_of_ne_zero hz) hm
        have hqlen : q < s.length := lt_trans hq hm
        have hqsub : q ∈ subtreeIds m s 0 :=
          subtreeIds_mono_le s m (q + 1) hq 0 (ih q hq hqlen)
        have hmchild : m ∈ (nodeAt s q).Children :=
          (hcoh q m hqlen).mpr ⟨hq, hm, hqp⟩
        exact subtreeIds_child_step s m 0 q m hqsub hmchild
  intro m hm
  exact subtreeIds_mono_le s s.length (m + 1) hm 0 (hcov m hm)

/-- C1 amended: for trees assembled top-down (each add_child attaches a
fresh node to a node already in the root Model's tree), the root's
ListOfMeshes holds exactly the mesh-bearing nodes of its subtree, each
once, in attachment order (= id order here). -/
theorem claim_C1_amended (ops : List (Nat × BuildKind)) (hv : validOps ops) :
    (runBuild ops).2 = none ∧
    (nodeAt (runBuild ops).1 0).Parent = none ∧
    (nodeAt (runBuild ops).1 0).ListOfMeshes = some (meshIdsFrom 1 ops) ∧
    (meshIdsFrom 1 ops).Nodup ∧
    (∀ m, (m ∈ subtreeIds (runBuild ops).1.length (runBuild ops).1 0 ∧
      (nodeAt (runBuild ops).1 m).IsMesh = true) ↔
      m ∈ meshIdsFrom 1 ops) := by
  have hinit : InvHeap initHeap := initHeap_inv
  have h := runBuildFrom_inv ops initHeap hinit hv
  simp only [runBuild]
  obtain ⟨r1, r2, r3, r4⟩ := h
  have hml0 : meshList initHeap = [] := rfl
  have hlen1 : initHeap.length = 1 := rfl
  rw [hlen1] at r3
  rw [hml0, hlen1, List.nil_append] at r4
  obtain ⟨i1, i2, i3, i4, i5⟩ := r2
  refine ⟨r1, i2, by rw [i3, r4], ?_, ?_⟩
  · rw [← r4]
    exact List.Nodup.filter _ (List.nodup_range _)
  intro m
  constructor
  · rintro ⟨hsub, hmesh⟩
    have hmlen : m < (runBuildFrom initHeap ops).1.length :=
      subtreeIds_bound (runBuildFrom initHeap ops).1 ⟨i1, i2, i3, i4, i5⟩
        (runBuildFrom initHeap ops).1.length 0 i1 m hsub
    rw [← r4]
    exact List.mem_filter.mpr ⟨List.mem_range.mpr hmlen, hmesh⟩
  · intro hm
    rw [← r4] at hm
    obtain ⟨hrange, hmesh⟩ := List.mem_filter.mp hm
    have hmlen : m < (runBuildFrom initHeap ops).1.length :=
      List.mem_range.mp hrange
    exact ⟨subtreeIds_cover (runBuildFrom initHeap ops).1
      ⟨i1, i2, i3, i4, i5⟩ m hmlen, hmesh⟩

/-- Witness for the amended C1 on a concrete script: a mesh under the
root, a locator under the root, and a mesh under the locator. -/
theorem claim_C1_witness :
    validOps exOps ∧
    ((runBuild exOps).2 = none ∧
     (nodeAt (runBuild exOps).1 0).Parent = none ∧
     (nodeAt (runBuild exOps).1 0).ListOfMeshes =
       some (meshIdsFrom 1 exOps) ∧
     (meshIdsFrom 1 exOps).Nodup ∧
     (∀ m, (m ∈ subtreeIds (runBuild exOps).1.length (runBuild exOps).1 0 ∧
       (nodeAt (runBuild exOps).1 m).IsMesh = true) ↔
       m ∈ meshIdsFrom 1 exOps)) :=
  have hv : validOps exOps := show validFromB 1 exOps = true by decide
  ⟨hv, claim_C1_amended exOps hv⟩
